import Mathlib

/-!
Verification of the incremental-sync core of the fitness-extractor system.

The development shallowly embeds the sync ingestion services
(`src/backend/src/services/*.ts`), the batch controllers
(`src/backend/src/controllers/syncController.ts`) and the client-side sync
orchestrator (`src/ios/.../SyncService.swift`, `APIClient.swift`).

Modelling conventions:
- JavaScript numbers that the code only stores, compares or selects are
  embedded as `Rat` (min/max on a list of doubles is exact selection, so any
  linear order represents it faithfully); integer-typed columns as `Int`.
- The relational store is a record of row lists; SQL `ON CONFLICT` clauses
  become an explicit membership test on the conflict key.
- The opaque `HKQueryAnchor` archive blob is an uninterpreted `String`.
- Asynchronous calls that can throw become `Except String` values supplied by
  an environment record; `makeRequest`'s status handling is embedded directly.
-/

namespace FitnessExtractor

/-- A GPS route point, wire format of `WorkoutData.route.points`
(`workoutService.ts`). -/
structure RoutePoint where
  lat : Rat
  lon : Rat
  timestamp : String
  altitude : Option Rat := none
  speed : Option Rat := none
  horizontal_accuracy : Option Rat := none
deriving Repr, DecidableEq

/-- Submitted workout record (`WorkoutData` in `workoutService.ts`).
`route` collapses the one-field `route.points` wrapper object. -/
structure WorkoutData where
  healthkit_uuid : String
  workout_type : String
  start_date : String
  end_date : String
  duration_seconds : Int
  total_distance_meters : Option Rat := none
  total_energy_burned_kcal : Option Rat := none
  avg_heart_rate_bpm : Option Int := none
  max_heart_rate_bpm : Option Int := none
  source_name : Option String := none
  source_bundle_id : Option String := none
  device_name : Option String := none
  metadata : Option (List (String × String)) := none
  route : Option (List RoutePoint) := none
deriving Repr, DecidableEq

/-- Submitted health metric sample (`HealthMetricData` in
`healthMetricsService.ts`). -/
structure HealthMetricData where
  healthkit_uuid : String
  metric_type : String
  value : Rat
  unit : String
  start_date : String
  end_date : String
  source_name : Option String := none
  source_bundle_id : Option String := none
  device_name : Option String := none
  metadata : Option (List (String × String)) := none
deriving Repr, DecidableEq

/-- Submitted daily activity-ring summary (`ActivityRingData` in
`activityRingsService.ts`). -/
structure ActivityRingData where
  date : String
  move_goal_kcal : Int
  move_actual_kcal : Int
  move_percent : Rat
  exercise_goal_minutes : Int
  exercise_actual_minutes : Int
  exercise_percent : Rat
  stand_goal_hours : Int
  stand_actual_hours : Int
  stand_percent : Rat
deriving Repr, DecidableEq

/-- Submitted sync anchor (`SyncAnchorData` in `syncAnchorsService.ts`). -/
structure SyncAnchorData where
  data_type : String
  anchor_data : String
deriving Repr, DecidableEq

/-- A stored row of the `workouts` table (columns of the INSERT in
`insertWorkout`). -/
structure WorkoutRow where
  user_id : String
  healthkit_uuid : String
  workout_type : String
  start_date : String
  end_date : String
  duration_seconds : Int
  total_distance_meters : Option Rat
  total_energy_burned_kcal : Option Rat
  avg_heart_rate_bpm : Option Int
  max_heart_rate_bpm : Option Int
  source_name : Option String
  source_bundle_id : Option String
  device_name : Option String
  metadata : Option (List (String × String))
deriving Repr, DecidableEq

/-- A stored row of the `workout_routes` table. The generated `workout_id`
foreign key is represented by the parent workout's unique `healthkit_uuid`. -/
structure RouteRow where
  workout_uuid : String
  route_points : List RoutePoint
  total_points : Nat
  min_latitude : Rat
  max_latitude : Rat
  min_longitude : Rat
  max_longitude : Rat
deriving Repr, DecidableEq

/-- A stored row of the `health_metrics` table. -/
structure HealthMetricRow where
  user_id : String
  healthkit_uuid : String
  metric_type : String
  value : Rat
  unit : String
  start_date : String
  end_date : String
  source_name : Option String
  source_bundle_id : Option String
  device_name : Option String
  metadata : Option (List (String × String))
deriving Repr, DecidableEq

/-- A stored row of the `activity_rings` table. The `updated_at` timestamp
(`NOW()` in SQL) is an abstract tick. -/
structure ActivityRingRow where
  user_id : String
  date : String
  move_goal_kcal : Int
  move_actual_kcal : Int
  move_percent : Rat
  exercise_goal_minutes : Int
  exercise_actual_minutes : Int
  exercise_percent : Rat
  stand_goal_hours : Int
  stand_actual_hours : Int
  stand_percent : Rat
  updated_at : Nat
deriving Repr, DecidableEq

/-- A stored row of the `sync_anchors` table. -/
structure SyncAnchorRow where
  user_id : String
  data_type : String
  anchor_data : String
  last_sync_at : Nat
deriving Repr, DecidableEq

/-- The record store: the five logical tables written by the sync core. -/
structure Db where
  workouts : List WorkoutRow
  workout_routes : List RouteRow
  health_metrics : List HealthMetricRow
  activity_rings : List ActivityRingRow
  sync_anchors : List SyncAnchorRow
deriving Repr, DecidableEq

/-- Per-record service outcome (`SyncResult` shared by the four services). -/
structure SyncResult where
  success : Bool
  error : Option String := none
  updated : Bool := false
deriving Repr, DecidableEq

/-- JavaScript `x || null` applied to an optional numeric field: `0`,
like `undefined`, is falsy and becomes `NULL`. -/
def jsOrNullRat : Option Rat → Option Rat
  | some x => if x = 0 then none else some x
  | none => none

/-- JavaScript `x || null` for optional integer fields. -/
def jsOrNullInt : Option Int → Option Int
  | some x => if x = 0 then none else some x
  | none => none

/-- JavaScript `x || null` for optional string fields: `""` is falsy. -/
def jsOrNullStr : Option String → Option String
  | some s => if s = "" then none else some s
  | none => none

/-- `Math.min(...xs)` over a spread list; the code only calls it on a
non-empty array (`points.length > 0` guard), the `[]` value is never used. -/
def jsMin : List Rat → Rat
  | [] => 0
  | a :: rest => rest.foldl min a

/-- `Math.max(...xs)` over a spread list; same non-empty guard as `jsMin`. -/
def jsMax : List Rat → Rat
  | [] => 0
  | a :: rest => rest.foldl max a

namespace Server

/-- Does the `workouts` table already hold this dedup key
(the `ON CONFLICT (healthkit_uuid)` uniqueness test)? -/
def hasWorkoutUuid (db : Db) (uuid : String) : Bool :=
  db.workouts.any fun r => decide (r.healthkit_uuid = uuid)

/-- Does the `health_metrics` table already hold this dedup key? -/
def hasMetricUuid (db : Db) (uuid : String) : Bool :=
  db.health_metrics.any fun r => decide (r.healthkit_uuid = uuid)

/-- `insertWorkout` (`workoutService.ts` 39-135): one transaction that
inserts the workout with `ON CONFLICT (healthkit_uuid) DO NOTHING` — a
conflict rolls back and reports `"Duplicate workout"` — and, when a
non-empty route accompanies it, inserts the route row with the bounding box
computed by `Math.min`/`Math.max` over the point coordinates. -/
def insertWorkout (db : Db) (userId : String) (w : WorkoutData) :
    Db × SyncResult :=
  if hasWorkoutUuid db w.healthkit_uuid then
    (db, { success := false, error := some "Duplicate workout" })
  else
    let row : WorkoutRow := {
      user_id := userId
      healthkit_uuid := w.healthkit_uuid
      workout_type := w.workout_type
      start_date := w.start_date
      end_date := w.end_date
      duration_seconds := w.duration_seconds
      total_distance_meters := jsOrNullRat w.total_distance_meters
      total_energy_burned_kcal := jsOrNullRat w.total_energy_burned_kcal
      avg_heart_rate_bpm := jsOrNullInt w.avg_heart_rate_bpm
      max_heart_rate_bpm := jsOrNullInt w.max_heart_rate_bpm
      source_name := jsOrNullStr w.source_name
      source_bundle_id := jsOrNullStr w.source_bundle_id
      device_name := jsOrNullStr w.device_name
      metadata := w.metadata }
    let db1 : Db := { db with workouts := db.workouts ++ [row] }
    match w.route with
    | some pts =>
      if pts.length > 0 then
        let lats := pts.map (·.lat)
        let lons := pts.map (·.lon)
        let route : RouteRow := {
          workout_uuid := w.healthkit_uuid
          route_points := pts
          total_points := pts.length
          min_latitude := jsMin lats
          max_latitude := jsMax lats
          min_longitude := jsMin lons
          max_longitude := jsMax lons }
        ({ db1 with workout_routes := db1.workout_routes ++ [route] },
         { success := true })
      else (db1, { success := true })
    | none => (db1, { success := true })

/-- `insertHealthMetric` (`healthMetricsService.ts` 161-224): insert with
`ON CONFLICT (healthkit_uuid) DO NOTHING`; a conflict reports
`"Duplicate metric"`. -/
def insertHealthMetric (db : Db) (userId : String) (m : HealthMetricData) :
    Db × SyncResult :=
  if hasMetricUuid db m.healthkit_uuid then
    (db, { success := false, error := some "Duplicate metric" })
  else
    let row : HealthMetricRow := {
      user_id := userId
      healthkit_uuid := m.healthkit_uuid
      metric_type := m.metric_type
      value := m.value
      unit := m.unit
      start_date := m.start_date
      end_date := m.end_date
      source_name := jsOrNullStr m.source_name
      source_bundle_id := jsOrNullStr m.source_bundle_id
      device_name := jsOrNullStr m.device_name
      metadata := m.metadata }
    ({ db with health_metrics := db.health_metrics ++ [row] },
     { success := true })

/-- Conflict key of the `activity_rings` table: `(user_id, date)`. -/
def ringKey (userId date : String) (r : ActivityRingRow) : Bool :=
  decide (r.user_id = userId ∧ r.date = date)

/-- `upsertActivityRing` (`activityRingsService.ts` 368-436):
`ON CONFLICT (user_id, date) DO UPDATE` overwriting all nine ring columns
and `updated_at = NOW()`; `(xmax = 0)` distinguishes insert from update. -/
def upsertActivityRing (now : Nat) (db : Db) (userId : String)
    (ring : ActivityRingData) : Db × SyncResult :=
  if db.activity_rings.any (ringKey userId ring.date) then
    ({ db with activity_rings := db.activity_rings.map fun r =>
        if ringKey userId ring.date r then
          { r with
            move_goal_kcal := ring.move_goal_kcal
            move_actual_kcal := ring.move_actual_kcal
            move_percent := ring.move_percent
            exercise_goal_minutes := ring.exercise_goal_minutes
            exercise_actual_minutes := ring.exercise_actual_minutes
            exercise_percent := ring.exercise_percent
            stand_goal_hours := ring.stand_goal_hours
            stand_actual_hours := ring.stand_actual_hours
            stand_percent := ring.stand_percent
            updated_at := now }
        else r },
     { success := true, updated := true })
  else
    ({ db with activity_rings := db.activity_rings ++ [{
        user_id := userId
        date := ring.date
        move_goal_kcal := ring.move_goal_kcal
        move_actual_kcal := ring.move_actual_kcal
        move_percent := ring.move_percent
        exercise_goal_minutes := ring.exercise_goal_minutes
        exercise_actual_minutes := ring.exercise_actual_minutes
        exercise_percent := ring.exercise_percent
        stand_goal_hours := ring.stand_goal_hours
        stand_actual_hours := ring.stand_actual_hours
        stand_percent := ring.stand_percent
        updated_at := now }] },
     { success := true, updated := false })

/-- Conflict key of the `sync_anchors` table: `(user_id, data_type)`. -/
def anchorKey (userId dataType : String) (r : SyncAnchorRow) : Bool :=
  decide (r.user_id = userId ∧ r.data_type = dataType)

/-- `upsertSyncAnchor` (`syncAnchorsService.ts` 254-298):
`ON CONFLICT (user_id, data_type) DO UPDATE` overwriting `anchor_data` and
`last_sync_at = NOW()`. -/
def upsertSyncAnchor (now : Nat) (db : Db) (userId : String)
    (a : SyncAnchorData) : Db × SyncResult :=
  if db.sync_anchors.any (anchorKey userId a.data_type) then
    ({ db with sync_anchors := db.sync_anchors.map fun r =>
        if anchorKey userId a.data_type r then
          { r with anchor_data := a.anchor_data, last_sync_at := now }
        else r },
     { success := true, updated := true })
  else
    ({ db with sync_anchors := db.sync_anchors ++ [{
        user_id := userId
        data_type := a.data_type
        anchor_data := a.anchor_data
        last_sync_at := now }] },
     { success := true, updated := false })

/-- HTTP response of a batch controller (`syncController.ts`): either the
400 structural-validation rejection, or the per-batch result envelope whose
status is 500/207/200. -/
inductive SyncResponse where
  | badRequest (message : String)
  | batchResult (status : Nat) (success : Bool) (synced skipped : Nat)
      (errors : List (String × String))
deriving Repr, DecidableEq

/-- The HTTP status of a controller response. -/
def SyncResponse.statusCode : SyncResponse → Nat
  | .badRequest _ => 400
  | .batchResult st _ _ _ _ => st

/-- JavaScript truthiness test `!user_id` for the owner field: absent or
empty-string owner fails structural validation. -/
def jsFalsyStr : Option String → Bool
  | none => true
  | some s => decide (s = "")

/-- The per-record loop of a batch controller (`syncController.ts` 41-54):
each record goes through `step` against the threaded store; a `success`
result counts as synced, the family's duplicate message counts as skipped,
anything else joins the error list under the record's `key`. -/
def runBatch {α : Type} (step : Db → α → Db × SyncResult) (key : α → String)
    (dupMsg : String) (db : Db) : List α →
    Db × Nat × Nat × List (String × String)
  | [] => (db, 0, 0, [])
  | r :: rest =>
    let p := step db r
    let q := runBatch step key dupMsg p.1 rest
    if p.2.success then (q.1, q.2.1 + 1, q.2.2.1, q.2.2.2)
    else if p.2.error = some dupMsg then (q.1, q.2.1, q.2.2.1 + 1, q.2.2.2)
    else (q.1, q.2.1, q.2.2.1,
          (key r, p.2.error.getD "Unknown error") :: q.2.2.2)

/-- `POST /api/sync/workouts` handler (`syncController.ts` 22-93),
parameterized by the injected per-record service (`insertWorkout` in the
source). Validation rejects a falsy `user_id` or a missing/non-array
`workouts`; the status is 500 when every record errored, 207 when some did,
200 otherwise. -/
def syncWorkoutsWith (step : Db → WorkoutData → Db × SyncResult) (db : Db)
    (user_id : Option String) (workouts : Option (List WorkoutData)) :
    Db × SyncResponse :=
  if jsFalsyStr user_id || workouts.isNone then
    (db, .badRequest "user_id and workouts array are required")
  else
    let ws := workouts.getD []
    let out := runBatch step (fun w => w.healthkit_uuid) "Duplicate workout" db ws
    let errs := out.2.2.2
    if errs.length = ws.length then
      (out.1, .batchResult 500 false out.2.1 out.2.2.1 errs)
    else if errs.length > 0 then
      (out.1, .batchResult 207 true out.2.1 out.2.2.1 errs)
    else (out.1, .batchResult 200 true out.2.1 out.2.2.1 [])

/-- The deployed workouts handler: the controller wired to `insertWorkout`. -/
def syncWorkouts (db : Db) (user_id : Option String)
    (workouts : Option (List WorkoutData)) : Db × SyncResponse :=
  syncWorkoutsWith (fun db w => insertWorkout db (user_id.getD "") w)
    db user_id workouts

/-- `POST /api/sync/health-metrics` handler (`syncController.ts` 99-173),
parameterized by the injected per-record service. -/
def syncHealthMetricsWith (step : Db → HealthMetricData → Db × SyncResult)
    (db : Db) (user_id : Option String)
    (metrics : Option (List HealthMetricData)) : Db × SyncResponse :=
  if jsFalsyStr user_id || metrics.isNone then
    (db, .badRequest "user_id and metrics array are required")
  else
    let ms := metrics.getD []
    let out := runBatch step (fun m => m.healthkit_uuid) "Duplicate metric" db ms
    let errs := out.2.2.2
    if errs.length = ms.length then
      (out.1, .batchResult 500 false out.2.1 out.2.2.1 errs)
    else if errs.length > 0 then
      (out.1, .batchResult 207 true out.2.1 out.2.2.1 errs)
    else (out.1, .batchResult 200 true out.2.1 out.2.2.1 [])

/-- The deployed health-metrics handler. -/
def syncHealthMetrics (db : Db) (user_id : Option String)
    (metrics : Option (List HealthMetricData)) : Db × SyncResponse :=
  syncHealthMetricsWith (fun db m => insertHealthMetric db (user_id.getD "") m)
    db user_id metrics

end Server

namespace Client

/-- Outcome of one HTTP exchange as seen by `APIClient.makeRequest`: a
transport failure, or a status code with the decoded body (`Except` models
a decoding failure). -/
inductive NetOutcome (α : Type) where
  | netError (msg : String)
  | http (status : Nat) (body : Except String α)
deriving Repr

/-- `APIClient.makeRequest` (`APIClient.swift` 52-106): a transport error
throws `networkError`; a status `>= 400` throws `httpError`; otherwise the
decoded body is returned (or its decoding error rethrown). -/
def makeRequest {α : Type} : NetOutcome α → Except String α
  | .netError m => .error ("Network error: " ++ m)
  | .http status body =>
    if 400 ≤ status then .error ("HTTP " ++ toString status) else body

/-- Decoded `SyncResponse` body on the client (`Models.swift`); the error
list is only logged by the orchestrator and is dropped here. -/
structure WireSyncResponse where
  success : Bool
  synced : Option Nat := none
  skipped : Option Nat := none
  updated : Option Nat := none
deriving Repr, DecidableEq

/-- Client orchestrator state (`SyncService` stored properties plus the
three `UserDefaults` anchor slots; an archived `HKQueryAnchor` is an opaque
string blob). -/
structure ClientState where
  isSyncing : Bool := false
  lastSyncDate : Option Nat := none
  syncStatus : String := "Not synced"
  syncError : Option String := none
  workoutsAnchor : Option String := none
  heartRateAnchor : Option String := none
  stepCountAnchor : Option String := none
deriving Repr, DecidableEq

/-- One run's environment: the results HealthKit and the network would
deliver to each call the orchestrator can make. Fetch results are
`(records, newAnchor)` pairs as returned by `HKAnchoredObjectQuery`;
`.error` is a thrown query error. -/
structure SyncEnv where
  now : Nat
  healthNet : NetOutcome String
  fetchWorkouts : Except String (List WorkoutData × Option String)
  workoutsNet : NetOutcome WireSyncResponse
  fetchHeartRate : Except String (List HealthMetricData × Option String)
  heartRateNet : NetOutcome WireSyncResponse
  fetchStepCount : Except String (List HealthMetricData × Option String)
  stepCountNet : NetOutcome WireSyncResponse
  fetchRings : Except String (List ActivityRingData)
  ringsNet : NetOutcome WireSyncResponse
  fetchWorkoutsHistorical : Except String (List WorkoutData × Option String)
  workoutsHistNet : NetOutcome WireSyncResponse
  fetchRingsHistorical : Except String (List ActivityRingData)
  ringsHistNet : NetOutcome WireSyncResponse
deriving Repr

/-- `api.healthCheck()` plus the guard at `SyncService.swift` 53-59:
`none` when the probe succeeded with body status `"ok"`, otherwise the
thrown error message. -/
def healthCheckStep (env : SyncEnv) : Option String :=
  match makeRequest env.healthNet with
  | .error e => some e
  | .ok s => if s = "ok" then none else some "Backend health check failed"

/-- `SyncService.syncWorkouts` (`SyncService.swift` 151-169): fetch since
the anchor; submit only when non-empty (a throwing submission aborts before
the anchor save); then save the query's new anchor when one was returned.
The second component is the thrown error, `none` on normal return. -/
def syncWorkoutsStep (env : SyncEnv) (s : ClientState) :
    ClientState × Option String :=
  match env.fetchWorkouts with
  | .error e => (s, some e)
  | .ok (workouts, newAnchor) =>
    let submit : Option String :=
      if workouts.isEmpty then none
      else
        match makeRequest env.workoutsNet with
        | .error e => some e
        | .ok _ => none
    match submit with
    | some e => (s, some e)
    | none =>
      match newAnchor with
      | some a => ({ s with workoutsAnchor := some a }, none)
      | none => (s, none)

/-- `SyncService.syncHealthMetrics` (`SyncService.swift` 171-214): the
heart-rate fetch/submit/anchor-save sequence followed by the step-count
one; a throw anywhere aborts the rest, keeping anchor saves already made. -/
def syncHealthMetricsStep (env : SyncEnv) (s : ClientState) :
    ClientState × Option String :=
  match env.fetchHeartRate with
  | .error e => (s, some e)
  | .ok (heartRateMetrics, newHeartRateAnchor) =>
    let submit : Option String :=
      if heartRateMetrics.isEmpty then none
      else
        match makeRequest env.heartRateNet with
        | .error e => some e
        | .ok _ => none
    match submit with
    | some e => (s, some e)
    | none =>
      let s1 :=
        match newHeartRateAnchor with
        | some a => { s with heartRateAnchor := some a }
        | none => s
      match env.fetchStepCount with
      | .error e => (s1, some e)
      | .ok (stepCountMetrics, newStepCountAnchor) =>
        let submit2 : Option String :=
          if stepCountMetrics.isEmpty then none
          else
            match makeRequest env.stepCountNet with
            | .error e => some e
            | .ok _ => none
        match submit2 with
        | some e => (s1, some e)
        | none =>
          match newStepCountAnchor with
          | some a => ({ s1 with stepCountAnchor := some a }, none)
          | none => (s1, none)

/-- `SyncService.syncActivityRings` (`SyncService.swift` 216-228): fetch a
rolling window and submit when non-empty; no anchor exists for rings and
no state is written. -/
def syncActivityRingsStep (env : SyncEnv) (s : ClientState) :
    ClientState × Option String :=
  match env.fetchRings with
  | .error e => (s, some e)
  | .ok rings =>
    if rings.isEmpty then (s, none)
    else
      match makeRequest env.ringsNet with
      | .error e => (s, some e)
      | .ok _ => (s, none)

/-- The `do` block of `performFullSync` (`SyncService.swift` 52-79):
preflight health check, then the three data-type steps in order; the first
throw aborts the remainder but keeps the state written so far; full success
records the sync date. -/
def fullSyncBody (env : SyncEnv) (s : ClientState) :
    ClientState × Option String :=
  match healthCheckStep env with
  | some e => (s, some e)
  | none =>
    match syncWorkoutsStep env s with
    | (s1, some e) => (s1, some e)
    | (s1, none) =>
      match syncHealthMetricsStep env s1 with
      | (s2, some e) => (s2, some e)
      | (s2, none) =>
        match syncActivityRingsStep env s2 with
        | (s3, some e) => (s3, some e)
        | (s3, none) =>
          ({ s3 with lastSyncDate := some env.now,
                     syncStatus := "Last synced" }, none)

/-- `SyncService.performFullSync` (`SyncService.swift` 40-90): re-entrancy
guard, status reset, the guarded body, and the catch that records the error
message; `isSyncing` is cleared on every exit. -/
def performFullSync (env : SyncEnv) (s0 : ClientState) : ClientState :=
  if s0.isSyncing then s0
  else
    let s := { s0 with isSyncing := true, syncError := none,
                       syncStatus := "Syncing..." }
    match fullSyncBody env s with
    | (s1, some e) =>
      { s1 with isSyncing := false, syncError := some e,
                syncStatus := "Sync failed: " ++ e }
    | (s1, none) => { s1 with isSyncing := false }

/-- The `do` block of `performHistoricalImport` (`SyncService.swift`
99-136): no preflight; fetch the lookback-window workouts (nil anchor),
submit when non-empty, save the returned anchor, then fetch and submit the
lookback activity rings; full success records the sync date. -/
def historicalImportBody (env : SyncEnv) (s : ClientState) :
    ClientState × Option String :=
  match env.fetchWorkoutsHistorical with
  | .error e => (s, some e)
  | .ok (workouts, workoutsAnchor) =>
    let submit : Option String :=
      if workouts.isEmpty then none
      else
        match makeRequest env.workoutsHistNet with
        | .error e => some e
        | .ok _ => none
    match submit with
    | some e => (s, some e)
    | none =>
      let s1 :=
        match workoutsAnchor with
        | some a => { s with workoutsAnchor := some a }
        | none => s
      match env.fetchRingsHistorical with
      | .error e => (s1, some e)
      | .ok rings =>
        let submitR : Option String :=
          if rings.isEmpty then none
          else
            match makeRequest env.ringsHistNet with
            | .error e => some e
            | .ok _ => none
        match submitR with
        | some e => (s1, some e)
        | none =>
          ({ s1 with lastSyncDate := some env.now,
                     syncStatus := "Historical import complete" }, none)

/-- `SyncService.performHistoricalImport` (`SyncService.swift` 92-147):
re-entrancy guard, the import body, and the catch recording the error. -/
def performHistoricalImport (env : SyncEnv) (s0 : ClientState) :
    ClientState :=
  if s0.isSyncing then s0
  else
    let s := { s0 with isSyncing := true, syncError := none,
                       syncStatus := "Importing..." }
    match historicalImportBody env s with
    | (s1, some e) =>
      { s1 with isSyncing := false, syncError := some e,
                syncStatus := "Import failed: " ++ e }
    | (s1, none) => { s1 with isSyncing := false }

/-- The workouts step of a run throws `e`: its HealthKit query throws, or
it fetched records and its submission throws (`makeRequest` error). These
are exactly the two `try` points of `SyncService.syncWorkouts`. -/
def workoutsStepFails (env : SyncEnv) (e : String) : Prop :=
  env.fetchWorkouts = .error e ∨
  ∃ ws na, env.fetchWorkouts = .ok (ws, na) ∧ ws ≠ [] ∧
    makeRequest env.workoutsNet = .error e

/-- The workouts step returns without throwing: the query succeeds and
either there is nothing to submit or the submission succeeds. -/
def workoutsStepOk (env : SyncEnv) : Prop :=
  ∃ ws na, env.fetchWorkouts = .ok (ws, na) ∧
    (ws = [] ∨ ∃ r, makeRequest env.workoutsNet = .ok r)

/-- The heart-rate half of the metrics step returns without throwing. -/
def heartRatePartOk (env : SyncEnv) : Prop :=
  ∃ ms na, env.fetchHeartRate = .ok (ms, na) ∧
    (ms = [] ∨ ∃ r, makeRequest env.heartRateNet = .ok r)

/-- The step-count half of the metrics step returns without throwing. -/
def stepCountPartOk (env : SyncEnv) : Prop :=
  ∃ ms na, env.fetchStepCount = .ok (ms, na) ∧
    (ms = [] ∨ ∃ r, makeRequest env.stepCountNet = .ok r)

/-- The metrics step throws `e` at one of its four `try` points: the
heart-rate query or submission, or — with the heart-rate half surviving —
the step-count query or submission. -/
def metricsStepFails (env : SyncEnv) (e : String) : Prop :=
  env.fetchHeartRate = .error e ∨
  (∃ ms na, env.fetchHeartRate = .ok (ms, na) ∧ ms ≠ [] ∧
    makeRequest env.heartRateNet = .error e) ∨
  (heartRatePartOk env ∧
    (env.fetchStepCount = .error e ∨
     ∃ ms na, env.fetchStepCount = .ok (ms, na) ∧ ms ≠ [] ∧
       makeRequest env.stepCountNet = .error e))

/-- The metrics step returns without throwing. -/
def metricsStepOk (env : SyncEnv) : Prop :=
  heartRatePartOk env ∧ stepCountPartOk env

/-- The activity-rings step throws `e`: its query throws, or it fetched
records and its submission throws. -/
def ringsStepFails (env : SyncEnv) (e : String) : Prop :=
  env.fetchRings = .error e ∨
  ∃ rs, env.fetchRings = .ok rs ∧ rs ≠ [] ∧
    makeRequest env.ringsNet = .error e

end Client

/-! Concrete fixtures used to evaluate the definitions at explicit inputs. -/

/-- The empty record store. -/
def dbEmpty : Db :=
  { workouts := [], workout_routes := [], health_metrics := []
    activity_rings := [], sync_anchors := [] }

/-- A routine workout record. -/
def wSample : WorkoutData :=
  { healthkit_uuid := "workout-1", workout_type := "running"
    start_date := "2025-01-15T10:00:00Z", end_date := "2025-01-15T10:35:00Z"
    duration_seconds := 2100 }

/-- A workout whose submitted duration is negative. -/
def wNegDuration : WorkoutData :=
  { healthkit_uuid := "workout-neg", workout_type := "running"
    start_date := "2025-01-15T10:00:00Z", end_date := "2025-01-15T09:58:20Z"
    duration_seconds := -100 }

/-- A heart-rate sample. -/
def mSample : HealthMetricData :=
  { healthkit_uuid := "metric-1", metric_type := "heart_rate", value := 72
    unit := "bpm", start_date := "2025-01-15T10:00:00Z"
    end_date := "2025-01-15T10:00:00Z" }

/-- Two GPS points spanning a small bounding box. -/
def ptA : RoutePoint :=
  { lat := 37.7749, lon := -122.4194, timestamp := "2025-01-15T10:00:00Z" }

/-- Second GPS point, north-west of `ptA`. -/
def ptB : RoutePoint :=
  { lat := 37.8, lon := -122.5, timestamp := "2025-01-15T10:05:00Z" }

/-- A workout carrying a two-point route. -/
def wRoute : WorkoutData :=
  { wSample with healthkit_uuid := "workout-route", route := some [ptA, ptB] }

/-- A resubmitted activity-ring summary for an existing date. -/
def ringSubmitted : ActivityRingData :=
  { date := "2025-01-15", move_goal_kcal := 500, move_actual_kcal := 620
    move_percent := 124, exercise_goal_minutes := 30
    exercise_actual_minutes := 45, exercise_percent := 150
    stand_goal_hours := 12, stand_actual_hours := 10, stand_percent := 83 }

/-- The previously stored ring row for the same (owner, date). -/
def ringRowOld : ActivityRingRow :=
  { user_id := "user-1", date := "2025-01-15", move_goal_kcal := 500
    move_actual_kcal := 100, move_percent := 20, exercise_goal_minutes := 30
    exercise_actual_minutes := 5, exercise_percent := 16
    stand_goal_hours := 12, stand_actual_hours := 2, stand_percent := 16
    updated_at := 1 }

/-- The previously stored anchor row for (user-1, workouts). -/
def anchRowOld : SyncAnchorRow :=
  { user_id := "user-1", data_type := "workouts"
    anchor_data := "blob-old", last_sync_at := 1 }

/-- A resubmitted anchor for the same (owner, data-type). -/
def anchSubmitted : SyncAnchorData :=
  { data_type := "workouts", anchor_data := "blob-new" }

/-- A store already holding a ring row and an anchor row for user-1. -/
def dbSeed : Db :=
  { dbEmpty with activity_rings := [ringRowOld], sync_anchors := [anchRowOld] }

/-- A 200 response with a decodable success body. -/
def okNet : Client.NetOutcome Client.WireSyncResponse :=
  .http 200 (.ok { success := true })

/-- A benign environment: healthy backend, empty fetches, successful nets. -/
def envBase : Client.SyncEnv :=
  { now := 100
    healthNet := .http 200 (.ok "ok")
    fetchWorkouts := .ok ([], none)
    workoutsNet := okNet
    fetchHeartRate := .ok ([], none)
    heartRateNet := okNet
    fetchStepCount := .ok ([], none)
    stepCountNet := okNet
    fetchRings := .ok []
    ringsNet := okNet
    fetchWorkoutsHistorical := .ok ([], none)
    workoutsHistNet := okNet
    fetchRingsHistorical := .ok []
    ringsHistNet := okNet }

/-- A fresh client state (no run in progress, no anchors). -/
def sC0 : Client.ClientState := {}

/-- A client state holding a previously persisted workouts anchor. -/
def sC3 : Client.ClientState := { workoutsAnchor := some "anchor-old" }

/-- Zero workouts fetched, yet the query hands back a new anchor; the
submission endpoint would fail if it were called. -/
def envC3 : Client.SyncEnv :=
  { envBase with fetchWorkouts := .ok ([], some "anchor-new")
                 workoutsNet := .netError "down" }

/-- The workouts query throws, while the heart-rate step would fully
succeed and return a fresh anchor. -/
def envC4 : Client.SyncEnv :=
  { envBase with fetchWorkouts := .error "HealthKit query failed"
                 fetchHeartRate := .ok ([mSample], some "hr-new") }

/-- The liveness probe is unreachable, while the historical workouts fetch
returns one record and a fresh anchor. -/
def envC9 : Client.SyncEnv :=
  { envBase with healthNet := .netError "backend down"
                 fetchWorkoutsHistorical := .ok ([wSample], some "hist-anchor") }

/-- Every anchored query returns zero records yet hands back a fresh
anchor, while every submission endpoint would fail if it were called. -/
def envC3all : Client.SyncEnv :=
  { envBase with
    fetchWorkouts := .ok ([], some "w-new2")
    workoutsNet := .netError "down"
    fetchHeartRate := .ok ([], some "hr-new2")
    heartRateNet := .netError "down"
    fetchStepCount := .ok ([], some "sc-new2")
    stepCountNet := .netError "down" }

/-- The workouts step succeeds with nothing to submit, while the
heart-rate submission fails at the transport level. -/
def envC4b : Client.SyncEnv :=
  { envBase with fetchHeartRate := .ok ([mSample], some "hr-new")
                 heartRateNet := .netError "hr down" }

/-- Every data type has records to submit, and every submission endpoint
fails at the transport level. -/
def envAllFail : Client.SyncEnv :=
  { envBase with
    fetchWorkouts := .ok ([wSample], some "w-new")
    workoutsNet := .netError "down"
    fetchHeartRate := .ok ([mSample], some "hr-new")
    heartRateNet := .netError "down"
    fetchStepCount := .ok ([mSample], some "sc-new")
    stepCountNet := .netError "down" }

/-! Helper lemmas. -/

/-- A left fold of `min` lands on its seed or on a list element. -/
theorem foldl_min_mem {α : Type} [LinearOrder α] :
    ∀ (l : List α) (a : α), l.foldl min a ∈ a :: l := by
  intro l
  induction l with
  | nil => intro a; simp
  | cons b t ih =>
    intro a
    have h := ih (min a b)
    simp only [List.foldl_cons]
    rcases List.mem_cons.mp h with h1 | h1
    · rw [h1]
      rcases min_choice a b with he | he <;> rw [he] <;> simp
    · simp [h1]

/-- A left fold of `min` is a lower bound of seed and elements. -/
theorem foldl_min_le {α : Type} [LinearOrder α] :
    ∀ (l : List α) (a x : α), x ∈ a :: l → l.foldl min a ≤ x := by
  intro l
  induction l with
  | nil =>
    intro a x hx
    simp only [List.mem_singleton] at hx
    simp [hx]
  | cons b t ih =>
    intro a x hx
    simp only [List.foldl_cons]
    have hself := ih (min a b) (min a b) (List.mem_cons_self _ _)
    rcases List.mem_cons.mp hx with h1 | h1
    · rw [h1]
      exact le_trans hself (min_le_left a b)
    · rcases List.mem_cons.mp h1 with h2 | h2
      · rw [h2]
        exact le_trans hself (min_le_right a b)
      · exact ih (min a b) x (List.mem_cons_of_mem _ h2)

/-- A left fold of `max` lands on its seed or on a list element. -/
theorem foldl_max_mem {α : Type} [LinearOrder α] :
    ∀ (l : List α) (a : α), l.foldl max a ∈ a :: l := by
  intro l
  induction l with
  | nil => intro a; simp
  | cons b t ih =>
    intro a
    have h := ih (max a b)
    simp only [List.foldl_cons]
    rcases List.mem_cons.mp h with h1 | h1
    · rw [h1]
      rcases max_choice a b with he | he <;> rw [he] <;> simp
    · simp [h1]

/-- A left fold of `max` is an upper bound of seed and elements. -/
theorem foldl_max_le {α : Type} [LinearOrder α] :
    ∀ (l : List α) (a x : α), x ∈ a :: l → x ≤ l.foldl max a := by
  intro l
  induction l with
  | nil =>
    intro a x hx
    simp only [List.mem_singleton] at hx
    simp [hx]
  | cons b t ih =>
    intro a x hx
    simp only [List.foldl_cons]
    have hself := ih (max a b) (max a b) (List.mem_cons_self _ _)
    rcases List.mem_cons.mp hx with h1 | h1
    · rw [h1]
      exact le_trans (le_max_left a b) hself
    · rcases List.mem_cons.mp h1 with h2 | h2
      · rw [h2]
        exact le_trans (le_max_right a b) hself
      · exact ih (max a b) x (List.mem_cons_of_mem _ h2)

/-- On a non-empty list, `jsMin` picks an element of the list. -/
theorem jsMin_mem (l : List Rat) (h : l ≠ []) : jsMin l ∈ l := by
  cases l with
  | nil => exact absurd rfl h
  | cons a t => exact foldl_min_mem t a

/-- `jsMin` bounds every element of the list from below. -/
theorem jsMin_le (l : List Rat) (x : Rat) (hx : x ∈ l) : jsMin l ≤ x := by
  cases l with
  | nil => simp at hx
  | cons a t => exact foldl_min_le t a x hx

/-- On a non-empty list, `jsMax` picks an element of the list. -/
theorem jsMax_mem (l : List Rat) (h : l ≠ []) : jsMax l ∈ l := by
  cases l with
  | nil => exact absurd rfl h
  | cons a t => exact foldl_max_mem t a

/-- `jsMax` bounds every element of the list from above. -/
theorem jsMax_ge (l : List Rat) (x : Rat) (hx : x ∈ l) : x ≤ jsMax l := by
  cases l with
  | nil => simp at hx
  | cons a t => exact foldl_max_le t a x hx

/-! Claim C10. -/

/-- C10: a request with a present owner and an empty records array passes
structural validation, then `errors.length === records.length` holds at
`0 = 0`, so both batch endpoints answer 500 with zero synced, zero skipped
and an empty error list, and leave the store untouched. -/
theorem c10_empty_batch_whole_failure (db : Db) (u : String) (hu : u ≠ "") :
    Server.syncWorkouts db (some u) (some []) =
      (db, .batchResult 500 false 0 0 []) ∧
    Server.syncHealthMetrics db (some u) (some []) =
      (db, .batchResult 500 false 0 0 []) := by
  constructor <;>
    simp [Server.syncWorkouts, Server.syncWorkoutsWith,
      Server.syncHealthMetrics, Server.syncHealthMetricsWith,
      Server.jsFalsyStr, hu, Server.runBatch]

/-- Witness for C10 at owner `"user-1"` on the empty store. -/
theorem c10_empty_batch_whole_failure_witness :
    Server.syncWorkouts dbEmpty (some "user-1") (some []) =
      (dbEmpty, .batchResult 500 false 0 0 []) ∧
    Server.syncHealthMetrics dbEmpty (some "user-1") (some []) =
      (dbEmpty, .batchResult 500 false 0 0 []) :=
  c10_empty_batch_whole_failure dbEmpty "user-1" (by decide)

/-! Claim C8. -/

/-- C8: the code at the failing input. A workout whose `duration_seconds`
is `-100` passes through `syncWorkouts` unrejected: the batch answers 200
with one record synced and no errors, and the row is stored with the
negative duration — no validation layer exists, contradicting the repo's
`docs/API_SPECIFICATION.md` rule `duration_seconds: Required, integer >= 0`
and the spec's "validation rejects negative durations". -/
theorem c8_negative_duration_stored :
    (Server.syncWorkouts dbEmpty (some "user-1") (some [wNegDuration])).2 =
      .batchResult 200 true 1 0 [] ∧
    ∃ r ∈ (Server.syncWorkouts dbEmpty (some "user-1")
        (some [wNegDuration])).1.workouts,
      r.healthkit_uuid = "workout-neg" ∧ r.duration_seconds = -100 := by
  decide

/-! Claim C7. -/

/-- C7: inserting a workout with a non-empty route (and a fresh dedup key)
succeeds and appends, in the same `insertWorkout` transaction, both the
workout row and exactly one route row whose min/max latitude and longitude
are the exact minima and maxima over all points and whose stored point
count is the sequence length. -/
theorem c7_bounding_box (db : Db) (u : String) (w : WorkoutData)
    (pts : List RoutePoint) (hroute : w.route = some pts) (hne : pts ≠ [])
    (hnew : Server.hasWorkoutUuid db w.healthkit_uuid = false) :
    (Server.insertWorkout db u w).2.success = true ∧
    (∃ wr, (Server.insertWorkout db u w).1.workouts = db.workouts ++ [wr] ∧
      wr.healthkit_uuid = w.healthkit_uuid) ∧
    ∃ rr, (Server.insertWorkout db u w).1.workout_routes =
        db.workout_routes ++ [rr] ∧
      rr.workout_uuid = w.healthkit_uuid ∧
      rr.route_points = pts ∧
      rr.total_points = pts.length ∧
      rr.min_latitude ∈ pts.map (·.lat) ∧
      (∀ x ∈ pts.map (·.lat), rr.min_latitude ≤ x) ∧
      rr.max_latitude ∈ pts.map (·.lat) ∧
      (∀ x ∈ pts.map (·.lat), x ≤ rr.max_latitude) ∧
      rr.min_longitude ∈ pts.map (·.lon) ∧
      (∀ x ∈ pts.map (·.lon), rr.min_longitude ≤ x) ∧
      rr.max_longitude ∈ pts.map (·.lon) ∧
      (∀ x ∈ pts.map (·.lon), x ≤ rr.max_longitude) := by
  have hlen : pts.length > 0 := List.length_pos.mpr hne
  have hlatne : pts.map (·.lat) ≠ [] := by
    intro h
    exact hne (List.map_eq_nil_iff.mp h)
  have hlonne : pts.map (·.lon) ≠ [] := by
    intro h
    exact hne (List.map_eq_nil_iff.mp h)
  simp only [Server.insertWorkout, hnew, hroute, hlen, Bool.false_eq_true,
    if_false, if_true, gt_iff_lt, if_pos]
  refine ⟨trivial, ⟨_, rfl, rfl⟩, _, rfl, rfl, rfl, rfl,
    jsMin_mem _ hlatne, fun x hx => jsMin_le _ x hx,
    jsMax_mem _ hlatne, fun x hx => jsMax_ge _ x hx,
    jsMin_mem _ hlonne, fun x hx => jsMin_le _ x hx,
    jsMax_mem _ hlonne, fun x hx => jsMax_ge _ x hx⟩

/-- Witness for C7: the two-point route of `wRoute` on the empty store. -/
theorem c7_bounding_box_witness :
    (Server.insertWorkout dbEmpty "user-1" wRoute).2.success = true ∧
    (∃ wr, (Server.insertWorkout dbEmpty "user-1" wRoute).1.workouts =
        dbEmpty.workouts ++ [wr] ∧
      wr.healthkit_uuid = wRoute.healthkit_uuid) ∧
    ∃ rr, (Server.insertWorkout dbEmpty "user-1" wRoute).1.workout_routes =
        dbEmpty.workout_routes ++ [rr] ∧
      rr.workout_uuid = wRoute.healthkit_uuid ∧
      rr.route_points = [ptA, ptB] ∧
      rr.total_points = [ptA, ptB].length ∧
      rr.min_latitude ∈ [ptA, ptB].map (·.lat) ∧
      (∀ x ∈ [ptA, ptB].map (·.lat), rr.min_latitude ≤ x) ∧
      rr.max_latitude ∈ [ptA, ptB].map (·.lat) ∧
      (∀ x ∈ [ptA, ptB].map (·.lat), x ≤ rr.max_latitude) ∧
      rr.min_longitude ∈ [ptA, ptB].map (·.lon) ∧
      (∀ x ∈ [ptA, ptB].map (·.lon), rr.min_longitude ≤ x) ∧
      rr.max_longitude ∈ [ptA, ptB].map (·.lon) ∧
      (∀ x ∈ [ptA, ptB].map (·.lon), x ≤ rr.max_longitude) :=
  c7_bounding_box dbEmpty "user-1" wRoute [ptA, ptB] rfl (by simp) rfl

/-! Claim C6. -/

/-- C6: resubmitting an activity summary for a stored (owner, date) pair
overwrites all nine ring fields and the modification timestamp of every
matching row and reports `updated`; resubmitting an anchor for a stored
(owner, data-type) pair overwrites the payload and the last-sync timestamp
of every matching row — a full-field replace, never a partial merge. -/
theorem c6_full_field_replace (now : Nat) (db : Db) (u : String)
    (ring : ActivityRingData) (anch : SyncAnchorData)
    (hr : db.activity_rings.any (Server.ringKey u ring.date) = true)
    (ha : db.sync_anchors.any (Server.anchorKey u anch.data_type) = true) :
    (Server.upsertActivityRing now db u ring).2 =
      { success := true, updated := true } ∧
    (∃ r ∈ (Server.upsertActivityRing now db u ring).1.activity_rings,
      Server.ringKey u ring.date r = true) ∧
    (∀ r ∈ (Server.upsertActivityRing now db u ring).1.activity_rings,
      Server.ringKey u ring.date r = true →
      r.move_goal_kcal = ring.move_goal_kcal ∧
      r.move_actual_kcal = ring.move_actual_kcal ∧
      r.move_percent = ring.move_percent ∧
      r.exercise_goal_minutes = ring.exercise_goal_minutes ∧
      r.exercise_actual_minutes = ring.exercise_actual_minutes ∧
      r.exercise_percent = ring.exercise_percent ∧
      r.stand_goal_hours = ring.stand_goal_hours ∧
      r.stand_actual_hours = ring.stand_actual_hours ∧
      r.stand_percent = ring.stand_percent ∧
      r.updated_at = now) ∧
    (Server.upsertSyncAnchor now db u anch).2 =
      { success := true, updated := true } ∧
    (∃ r ∈ (Server.upsertSyncAnchor now db u anch).1.sync_anchors,
      Server.anchorKey u anch.data_type r = true) ∧
    (∀ r ∈ (Server.upsertSyncAnchor now db u anch).1.sync_anchors,
      Server.anchorKey u anch.data_type r = true →
      r.anchor_data = anch.anchor_data ∧ r.last_sync_at = now) := by
  refine ⟨?_, ?_, ?_, ?_, ?_, ?_⟩
  · simp [Server.upsertActivityRing, hr]
  · simp only [Server.upsertActivityRing, hr, if_true]
    obtain ⟨x, hx, hkx⟩ := List.any_eq_true.mp hr
    refine ⟨_, List.mem_map_of_mem _ hx, ?_⟩
    simp only [hkx, if_true]
    simp only [Server.ringKey, decide_eq_true_eq] at hkx ⊢
    exact hkx
  · simp only [Server.upsertActivityRing, hr, if_true]
    intro r hmem hkeyr
    rcases List.mem_map.mp hmem with ⟨x, hx, rfl⟩
    by_cases hkx : Server.ringKey u ring.date x = true
    · simp [hkx]
    · rw [Bool.not_eq_true] at hkx
      simp [hkx] at hkeyr
  · simp [Server.upsertSyncAnchor, ha]
  · simp only [Server.upsertSyncAnchor, ha, if_true]
    obtain ⟨x, hx, hkx⟩ := List.any_eq_true.mp ha
    refine ⟨_, List.mem_map_of_mem _ hx, ?_⟩
    simp only [hkx, if_true]
    simp only [Server.anchorKey, decide_eq_true_eq] at hkx ⊢
    exact hkx
  · simp only [Server.upsertSyncAnchor, ha, if_true]
    intro r hmem hkeyr
    rcases List.mem_map.mp hmem with ⟨x, hx, rfl⟩
    by_cases hkx : Server.anchorKey u anch.data_type x = true
    · simp [hkx]
    · rw [Bool.not_eq_true] at hkx
      simp [hkx] at hkeyr

/-- Witness for C6: a resubmitted ring and anchor over the seeded store. -/
theorem c6_full_field_replace_witness :
    (Server.upsertActivityRing 42 dbSeed "user-1" ringSubmitted).2 =
      { success := true, updated := true } ∧
    (∃ r ∈ (Server.upsertActivityRing 42 dbSeed "user-1"
        ringSubmitted).1.activity_rings,
      Server.ringKey "user-1" ringSubmitted.date r = true) ∧
    (∀ r ∈ (Server.upsertActivityRing 42 dbSeed "user-1"
        ringSubmitted).1.activity_rings,
      Server.ringKey "user-1" ringSubmitted.date r = true →
      r.move_goal_kcal = ringSubmitted.move_goal_kcal ∧
      r.move_actual_kcal = ringSubmitted.move_actual_kcal ∧
      r.move_percent = ringSubmitted.move_percent ∧
      r.exercise_goal_minutes = ringSubmitted.exercise_goal_minutes ∧
      r.exercise_actual_minutes = ringSubmitted.exercise_actual_minutes ∧
      r.exercise_percent = ringSubmitted.exercise_percent ∧
      r.stand_goal_hours = ringSubmitted.stand_goal_hours ∧
      r.stand_actual_hours = ringSubmitted.stand_actual_hours ∧
      r.stand_percent = ringSubmitted.stand_percent ∧
      r.updated_at = 42) ∧
    (Server.upsertSyncAnchor 42 dbSeed "user-1" anchSubmitted).2 =
      { success := true, updated := true } ∧
    (∃ r ∈ (Server.upsertSyncAnchor 42 dbSeed "user-1"
        anchSubmitted).1.sync_anchors,
      Server.anchorKey "user-1" anchSubmitted.data_type r = true) ∧
    (∀ r ∈ (Server.upsertSyncAnchor 42 dbSeed "user-1"
        anchSubmitted).1.sync_anchors,
      Server.anchorKey "user-1" anchSubmitted.data_type r = true →
      r.anchor_data = anchSubmitted.anchor_data ∧ r.last_sync_at = 42) :=
  c6_full_field_replace 42 dbSeed "user-1" ringSubmitted anchSubmitted
    (by decide) (by decide)

/-! Lemmas about the append-only insert services and the batch loop. -/

/-- A duplicate dedup key makes `insertWorkout` roll back and report it. -/
theorem insertWorkout_dup (db : Db) (u : String) (w : WorkoutData)
    (h : Server.hasWorkoutUuid db w.healthkit_uuid = true) :
    Server.insertWorkout db u w =
      (db, { success := false, error := some "Duplicate workout" }) := by
  simp [Server.insertWorkout, h]

/-- After `insertWorkout`, the submitted dedup key is stored. -/
theorem insertWorkout_uuid_present (db : Db) (u : String) (w : WorkoutData) :
    Server.hasWorkoutUuid (Server.insertWorkout db u w).1
      w.healthkit_uuid = true := by
  by_cases h : Server.hasWorkoutUuid db w.healthkit_uuid = true
  · rw [insertWorkout_dup db u w h]
    exact h
  · rw [Bool.not_eq_true] at h
    simp only [Server.insertWorkout, h, Bool.false_eq_true, if_false]
    cases hr : w.route with
    | none => simp [Server.hasWorkoutUuid, List.any_append]
    | some pts =>
      by_cases hp : pts.length > 0 <;>
        simp [hp, Server.hasWorkoutUuid, List.any_append]

/-- `insertWorkout` never removes a stored dedup key. -/
theorem insertWorkout_mono (db : Db) (u : String) (w : WorkoutData)
    (x : String) (h : Server.hasWorkoutUuid db x = true) :
    Server.hasWorkoutUuid (Server.insertWorkout db u w).1 x = true := by
  by_cases hdup : Server.hasWorkoutUuid db w.healthkit_uuid = true
  · rw [insertWorkout_dup db u w hdup]
    exact h
  · rw [Bool.not_eq_true] at hdup
    simp only [Server.insertWorkout, hdup, Bool.false_eq_true, if_false]
    cases hr : w.route with
    | none => simp_all [Server.hasWorkoutUuid, List.any_append]
    | some pts =>
      by_cases hp : pts.length > 0 <;>
        simp_all [Server.hasWorkoutUuid, List.any_append]

/-- A duplicate dedup key makes `insertHealthMetric` roll back and report
it. -/
theorem insertHealthMetric_dup (db : Db) (u : String) (m : HealthMetricData)
    (h : Server.hasMetricUuid db m.healthkit_uuid = true) :
    Server.insertHealthMetric db u m =
      (db, { success := false, error := some "Duplicate metric" }) := by
  simp [Server.insertHealthMetric, h]

/-- After `insertHealthMetric`, the submitted dedup key is stored. -/
theorem insertHealthMetric_uuid_present (db : Db) (u : String)
    (m : HealthMetricData) :
    Server.hasMetricUuid (Server.insertHealthMetric db u m).1
      m.healthkit_uuid = true := by
  by_cases h : Server.hasMetricUuid db m.healthkit_uuid = true
  · rw [insertHealthMetric_dup db u m h]
    exact h
  · rw [Bool.not_eq_true] at h
    simp only [Server.insertHealthMetric, h, Bool.false_eq_true, if_false]
    simp [Server.hasMetricUuid, List.any_append]

/-- `insertHealthMetric` never removes a stored dedup key. -/
theorem insertHealthMetric_mono (db : Db) (u : String) (m : HealthMetricData)
    (x : String) (h : Server.hasMetricUuid db x = true) :
    Server.hasMetricUuid (Server.insertHealthMetric db u m).1 x = true := by
  by_cases hdup : Server.hasMetricUuid db m.healthkit_uuid = true
  · rw [insertHealthMetric_dup db u m hdup]
    exact h
  · rw [Bool.not_eq_true] at hdup
    simp only [Server.insertHealthMetric, hdup, Bool.false_eq_true, if_false]
    simp_all [Server.hasMetricUuid, List.any_append]

/-- The store threaded out of a batch step does not depend on how the
record's outcome was classified. -/
theorem runBatch_fst_cons {α : Type} (step : Db → α → Db × SyncResult)
    (key : α → String) (dupMsg : String) (db : Db) (r : α) (rest : List α) :
    (Server.runBatch step key dupMsg db (r :: rest)).1 =
      (Server.runBatch step key dupMsg (step db r).1 rest).1 := by
  simp only [Server.runBatch]
  split
  · rfl
  · split <;> rfl

/-- The error list of a batch never outgrows the batch. -/
theorem runBatch_errs_le {α : Type} (step : Db → α → Db × SyncResult)
    (key : α → String) (dupMsg : String) :
    ∀ (rs : List α) (db : Db),
      (Server.runBatch step key dupMsg db rs).2.2.2.length ≤ rs.length := by
  intro rs
  induction rs with
  | nil => intro db; simp [Server.runBatch]
  | cons r rest ih =>
    intro db
    simp only [Server.runBatch]
    split
    · simpa using Nat.le_succ_of_le (ih _)
    · split
      · simpa using Nat.le_succ_of_le (ih _)
      · simpa using Nat.succ_le_succ (ih _)

/-- After the workouts batch loop, every stored dedup key is still stored
and every batch record's dedup key is stored. -/
theorem runBatchW_present (u : String) :
    ∀ (ws : List WorkoutData) (db : Db),
      (∀ x, Server.hasWorkoutUuid db x = true →
        Server.hasWorkoutUuid
          (Server.runBatch (fun db w => Server.insertWorkout db u w)
            (fun w => w.healthkit_uuid) "Duplicate workout" db ws).1
          x = true) ∧
      ∀ w ∈ ws,
        Server.hasWorkoutUuid
          (Server.runBatch (fun db w => Server.insertWorkout db u w)
            (fun w => w.healthkit_uuid) "Duplicate workout" db ws).1
          w.healthkit_uuid = true := by
  intro ws
  induction ws with
  | nil =>
    intro db
    refine ⟨fun x hx => ?_, fun w hw => absurd hw (List.not_mem_nil w)⟩
    simpa [Server.runBatch] using hx
  | cons r rest ih =>
    intro db
    constructor
    · intro x hx
      rw [runBatch_fst_cons]
      exact (ih _).1 x (insertWorkout_mono db u r x hx)
    · intro w hw
      rw [runBatch_fst_cons]
      rcases List.mem_cons.mp hw with h1 | h1
      · rw [h1]
        exact (ih _).1 r.healthkit_uuid (insertWorkout_uuid_present db u r)
      · exact (ih _).2 w h1

/-- A workouts batch whose dedup keys are all stored already is counted as
entirely skipped and leaves the store unchanged. -/
theorem runBatchW_all_dup (u : String) :
    ∀ (ws : List WorkoutData) (db : Db),
      (∀ w ∈ ws, Server.hasWorkoutUuid db w.healthkit_uuid = true) →
      Server.runBatch (fun db w => Server.insertWorkout db u w)
        (fun w => w.healthkit_uuid) "Duplicate workout" db ws =
        (db, 0, ws.length, []) := by
  intro ws
  induction ws with
  | nil => intro db _; simp [Server.runBatch]
  | cons r rest ih =>
    intro db h
    have hd := insertWorkout_dup db u r (h r (List.mem_cons_self r rest))
    have hrest := ih db (fun w hw => h w (List.mem_cons_of_mem r hw))
    simp [Server.runBatch, hd, hrest]

/-- Metric analogue of `runBatchW_present`. -/
theorem runBatchM_present (u : String) :
    ∀ (ms : List HealthMetricData) (db : Db),
      (∀ x, Server.hasMetricUuid db x = true →
        Server.hasMetricUuid
          (Server.runBatch (fun db m => Server.insertHealthMetric db u m)
            (fun m => m.healthkit_uuid) "Duplicate metric" db ms).1
          x = true) ∧
      ∀ m ∈ ms,
        Server.hasMetricUuid
          (Server.runBatch (fun db m => Server.insertHealthMetric db u m)
            (fun m => m.healthkit_uuid) "Duplicate metric" db ms).1
          m.healthkit_uuid = true := by
  intro ms
  induction ms with
  | nil =>
    intro db
    refine ⟨fun x hx => ?_, fun m hm => absurd hm (List.not_mem_nil m)⟩
    simpa [Server.runBatch] using hx
  | cons r rest ih =>
    intro db
    constructor
    · intro x hx
      rw [runBatch_fst_cons]
      exact (ih _).1 x (insertHealthMetric_mono db u r x hx)
    · intro m hm
      rw [runBatch_fst_cons]
      rcases List.mem_cons.mp hm with h1 | h1
      · rw [h1]
        exact (ih _).1 r.healthkit_uuid
          (insertHealthMetric_uuid_present db u r)
      · exact (ih _).2 m h1

/-- Metric analogue of `runBatchW_all_dup`. -/
theorem runBatchM_all_dup (u : String) :
    ∀ (ms : List HealthMetricData) (db : Db),
      (∀ m ∈ ms, Server.hasMetricUuid db m.healthkit_uuid = true) →
      Server.runBatch (fun db m => Server.insertHealthMetric db u m)
        (fun m => m.healthkit_uuid) "Duplicate metric" db ms =
        (db, 0, ms.length, []) := by
  intro ms
  induction ms with
  | nil => intro db _; simp [Server.runBatch]
  | cons r rest ih =>
    intro db h
    have hd := insertHealthMetric_dup db u r (h r (List.mem_cons_self r rest))
    have hrest := ih db (fun m hm => h m (List.mem_cons_of_mem r hm))
    simp [Server.runBatch, hd, hrest]

/-- With a truthy owner and an array present, the workouts controller is
the classification of its batch-loop output. -/
theorem syncWorkoutsWith_eq (step : Db → WorkoutData → Db × SyncResult)
    (db : Db) (u : String) (ws : List WorkoutData) (hu : u ≠ "") :
    Server.syncWorkoutsWith step db (some u) (some ws) =
      (let out := Server.runBatch step (fun w => w.healthkit_uuid)
          "Duplicate workout" db ws
       if out.2.2.2.length = ws.length then
         (out.1, .batchResult 500 false out.2.1 out.2.2.1 out.2.2.2)
       else if out.2.2.2.length > 0 then
         (out.1, .batchResult 207 true out.2.1 out.2.2.1 out.2.2.2)
       else (out.1, .batchResult 200 true out.2.1 out.2.2.1 [])) := by
  simp [Server.syncWorkoutsWith, Server.jsFalsyStr, hu]

/-- Metric analogue of `syncWorkoutsWith_eq`. -/
theorem syncHealthMetricsWith_eq
    (step : Db → HealthMetricData → Db × SyncResult) (db : Db) (u : String)
    (ms : List HealthMetricData) (hu : u ≠ "") :
    Server.syncHealthMetricsWith step db (some u) (some ms) =
      (let out := Server.runBatch step (fun m => m.healthkit_uuid)
          "Duplicate metric" db ms
       if out.2.2.2.length = ms.length then
         (out.1, .batchResult 500 false out.2.1 out.2.2.1 out.2.2.2)
       else if out.2.2.2.length > 0 then
         (out.1, .batchResult 207 true out.2.1 out.2.2.1 out.2.2.2)
       else (out.1, .batchResult 200 true out.2.1 out.2.2.1 [])) := by
  simp [Server.syncHealthMetricsWith, Server.jsFalsyStr, hu]

/-! Claim C1. -/

/-- C1: submitting the same workout (or health-metric) batch twice counts
every record as skipped on the second submission — 0 synced, all skipped,
no errors, full-success status — and leaves the store exactly as it was
after the first submission. -/
theorem c1_idempotent_ingestion (db : Db) (u : String)
    (ws : List WorkoutData) (ms : List HealthMetricData)
    (hu : u ≠ "") (hws : ws ≠ []) (hms : ms ≠ []) :
    Server.syncWorkouts (Server.syncWorkouts db (some u) (some ws)).1
        (some u) (some ws) =
      ((Server.syncWorkouts db (some u) (some ws)).1,
        .batchResult 200 true 0 ws.length []) ∧
    Server.syncHealthMetrics
        (Server.syncHealthMetrics db (some u) (some ms)).1
        (some u) (some ms) =
      ((Server.syncHealthMetrics db (some u) (some ms)).1,
        .batchResult 200 true 0 ms.length []) := by
  have hlenw : ws.length ≠ 0 := fun h => hws (List.length_eq_zero.mp h)
  have hlenm : ms.length ≠ 0 := fun h => hms (List.length_eq_zero.mp h)
  constructor
  · have hfst : (Server.syncWorkouts db (some u) (some ws)).1 =
        (Server.runBatch (fun db w => Server.insertWorkout db u w)
          (fun w => w.healthkit_uuid) "Duplicate workout" db ws).1 := by
      simp only [Server.syncWorkouts, Option.getD_some,
        syncWorkoutsWith_eq _ db u ws hu]
      split
      · rfl
      · split <;> rfl
    have hall := (runBatchW_present u ws db).2
    have h2 := runBatchW_all_dup u ws
      (Server.runBatch (fun db w => Server.insertWorkout db u w)
        (fun w => w.healthkit_uuid) "Duplicate workout" db ws).1 hall
    rw [hfst]
    simp only [Server.syncWorkouts, Option.getD_some,
      syncWorkoutsWith_eq _ _ u ws hu, h2]
    simp [hlenw.symm]
  · have hfst : (Server.syncHealthMetrics db (some u) (some ms)).1 =
        (Server.runBatch (fun db m => Server.insertHealthMetric db u m)
          (fun m => m.healthkit_uuid) "Duplicate metric" db ms).1 := by
      simp only [Server.syncHealthMetrics, Option.getD_some,
        syncHealthMetricsWith_eq _ db u ms hu]
      split
      · rfl
      · split <;> rfl
    have hall := (runBatchM_present u ms db).2
    have h2 := runBatchM_all_dup u ms
      (Server.runBatch (fun db m => Server.insertHealthMetric db u m)
        (fun m => m.healthkit_uuid) "Duplicate metric" db ms).1 hall
    rw [hfst]
    simp only [Server.syncHealthMetrics, Option.getD_some,
      syncHealthMetricsWith_eq _ _ u ms hu, h2]
    simp [hlenm.symm]

/-- Witness for C1: a one-workout and a one-metric batch submitted twice
to the empty store. -/
theorem c1_idempotent_ingestion_witness :
    Server.syncWorkouts
        (Server.syncWorkouts dbEmpty (some "user-1") (some [wSample])).1
        (some "user-1") (some [wSample]) =
      ((Server.syncWorkouts dbEmpty (some "user-1") (some [wSample])).1,
        .batchResult 200 true 0 [wSample].length []) ∧
    Server.syncHealthMetrics
        (Server.syncHealthMetrics dbEmpty (some "user-1") (some [mSample])).1
        (some "user-1") (some [mSample]) =
      ((Server.syncHealthMetrics dbEmpty (some "user-1") (some [mSample])).1,
        .batchResult 200 true 0 [mSample].length []) :=
  c1_idempotent_ingestion dbEmpty "user-1" [wSample] [mSample]
    (by decide) (List.cons_ne_nil _ _) (List.cons_ne_nil _ _)

/-! Claim C5. -/

/-- C5: for a well-formed non-empty batch — over any per-record outcome
function `step`, covering storage failures as well as successes and
duplicates — the workouts endpoint answers 500 exactly when every record
landed in the error list, 207 exactly when some but not all did, and 200
exactly when none did; duplicates and inserts both stay out of the error
list by construction of `runBatch`. -/
theorem c5_batch_result_classification
    (step : Db → WorkoutData → Db × SyncResult) (db : Db) (u : String)
    (ws : List WorkoutData) (hu : u ≠ "") (hws : ws ≠ []) :
    ((Server.syncWorkoutsWith step db (some u) (some ws)).2.statusCode = 500 ↔
      (Server.runBatch step (fun w => w.healthkit_uuid) "Duplicate workout"
          db ws).2.2.2.length = ws.length) ∧
    ((Server.syncWorkoutsWith step db (some u) (some ws)).2.statusCode = 207 ↔
      0 < (Server.runBatch step (fun w => w.healthkit_uuid)
          "Duplicate workout" db ws).2.2.2.length ∧
      (Server.runBatch step (fun w => w.healthkit_uuid) "Duplicate workout"
          db ws).2.2.2.length < ws.length) ∧
    ((Server.syncWorkoutsWith step db (some u) (some ws)).2.statusCode = 200 ↔
      (Server.runBatch step (fun w => w.healthkit_uuid) "Duplicate workout"
          db ws).2.2.2.length = 0) := by
  have hle := runBatch_errs_le step (fun w => w.healthkit_uuid)
    "Duplicate workout" ws db
  have hlen : ws.length ≠ 0 := fun h => hws (List.length_eq_zero.mp h)
  simp only [syncWorkoutsWith_eq step db u ws hu]
  by_cases h1 : (Server.runBatch step (fun w => w.healthkit_uuid)
      "Duplicate workout" db ws).2.2.2.length = ws.length
  · simp only [h1, if_true, if_pos rfl, Server.SyncResponse.statusCode]
    exact ⟨trivial, by omega, by omega⟩
  · by_cases h2 : 0 < (Server.runBatch step (fun w => w.healthkit_uuid)
        "Duplicate workout" db ws).2.2.2.length
    · simp only [h1, if_false, gt_iff_lt, h2, if_true,
        Server.SyncResponse.statusCode]
      refine ⟨by simp, ?_, ?_⟩
      · simp
        omega
      · simp
        intro hnil
        rw [hnil] at h2
        simp at h2
    · simp only [h1, if_false, gt_iff_lt, h2,
        Server.SyncResponse.statusCode]
      refine ⟨by simp, by simp, ?_⟩
      simp
      exact List.length_eq_zero.mp (by omega)

/-- Witness for C5 over the deployed per-record service at a one-workout
batch on the empty store. -/
theorem c5_batch_result_classification_witness :
    ((Server.syncWorkoutsWith (fun db w => Server.insertWorkout db "user-1" w)
        dbEmpty (some "user-1") (some [wSample])).2.statusCode = 500 ↔
      (Server.runBatch (fun db w => Server.insertWorkout db "user-1" w)
          (fun w => w.healthkit_uuid) "Duplicate workout"
          dbEmpty [wSample]).2.2.2.length = [wSample].length) ∧
    ((Server.syncWorkoutsWith (fun db w => Server.insertWorkout db "user-1" w)
        dbEmpty (some "user-1") (some [wSample])).2.statusCode = 207 ↔
      0 < (Server.runBatch (fun db w => Server.insertWorkout db "user-1" w)
          (fun w => w.healthkit_uuid) "Duplicate workout"
          dbEmpty [wSample]).2.2.2.length ∧
      (Server.runBatch (fun db w => Server.insertWorkout db "user-1" w)
          (fun w => w.healthkit_uuid) "Duplicate workout"
          dbEmpty [wSample]).2.2.2.length < [wSample].length) ∧
    ((Server.syncWorkoutsWith (fun db w => Server.insertWorkout db "user-1" w)
        dbEmpty (some "user-1") (some [wSample])).2.statusCode = 200 ↔
      (Server.runBatch (fun db w => Server.insertWorkout db "user-1" w)
          (fun w => w.healthkit_uuid) "Duplicate workout"
          dbEmpty [wSample]).2.2.2.length = 0) :=
  c5_batch_result_classification
    (fun db w => Server.insertWorkout db "user-1" w) dbEmpty "user-1"
    [wSample] (by decide) (List.cons_ne_nil _ _)

/-! Lemmas about the client orchestrator steps. -/

/-- The workouts step never writes the heart-rate or step-count anchors. -/
theorem syncWorkoutsStep_frame (env : Client.SyncEnv)
    (s : Client.ClientState) :
    ((Client.syncWorkoutsStep env s).1).heartRateAnchor = s.heartRateAnchor ∧
    ((Client.syncWorkoutsStep env s).1).stepCountAnchor =
      s.stepCountAnchor := by
  unfold Client.syncWorkoutsStep
  cases hfw : env.fetchWorkouts with
  | error e => exact ⟨rfl, rfl⟩
  | ok p =>
    rcases p with ⟨ws, na⟩
    cases hemp : ws.isEmpty <;>
      rcases hm : Client.makeRequest env.workoutsNet with e | r <;>
        cases na <;> simp [hemp, hm]

/-- The metrics step never writes the workouts anchor. -/
theorem syncHealthMetricsStep_w_frame (env : Client.SyncEnv)
    (s : Client.ClientState) :
    ((Client.syncHealthMetricsStep env s).1).workoutsAnchor =
      s.workoutsAnchor := by
  unfold Client.syncHealthMetricsStep
  (repeat' split) <;> simp

/-- The activity-rings step writes no client state at all. -/
theorem syncActivityRingsStep_fst (env : Client.SyncEnv)
    (s : Client.ClientState) :
    (Client.syncActivityRingsStep env s).1 = s := by
  unfold Client.syncActivityRingsStep
  (repeat' split) <;> simp

/-- A thrown workouts fetch aborts the workouts step with the state
unchanged. -/
theorem syncWorkoutsStep_fetch_fail (env : Client.SyncEnv)
    (s : Client.ClientState) (e : String)
    (hf : env.fetchWorkouts = .error e) :
    Client.syncWorkoutsStep env s = (s, some e) := by
  simp [Client.syncWorkoutsStep, hf]

/-- A totally failed workouts submission (thrown by `makeRequest`) aborts
the workouts step before the anchor save: the state is unchanged. -/
theorem syncWorkoutsStep_submit_fail (env : Client.SyncEnv)
    (s : Client.ClientState) (ws : List WorkoutData) (na : Option String)
    (e : String) (hf : env.fetchWorkouts = .ok (ws, na)) (hne : ws ≠ [])
    (hmr : Client.makeRequest env.workoutsNet = .error e) :
    Client.syncWorkoutsStep env s = (s, some e) := by
  have hemp : ws.isEmpty = false := by
    cases ws with
    | nil => exact absurd rfl hne
    | cons a t => rfl
  simp [Client.syncWorkoutsStep, hf, hemp, hmr]

/-- A totally failed heart-rate submission aborts the metrics step with
the state unchanged. -/
theorem syncHealthMetricsStep_hr_fail (env : Client.SyncEnv)
    (s : Client.ClientState) (ms : List HealthMetricData)
    (na : Option String) (e : String)
    (hf : env.fetchHeartRate = .ok (ms, na)) (hne : ms ≠ [])
    (hmr : Client.makeRequest env.heartRateNet = .error e) :
    Client.syncHealthMetricsStep env s = (s, some e) := by
  have hemp : ms.isEmpty = false := by
    cases ms with
    | nil => exact absurd rfl hne
    | cons a t => rfl
  simp [Client.syncHealthMetricsStep, hf, hemp, hmr]

/-- Under a totally failed step-count submission the metrics step leaves
the step-count anchor unchanged, whatever the heart-rate part did. -/
theorem syncHealthMetricsStep_sc_frame_fail (env : Client.SyncEnv)
    (s : Client.ClientState) (ms2 : List HealthMetricData)
    (na2 : Option String) (e : String)
    (hf : env.fetchStepCount = .ok (ms2, na2)) (hne : ms2 ≠ [])
    (hmr : Client.makeRequest env.stepCountNet = .error e) :
    ((Client.syncHealthMetricsStep env s).1).stepCountAnchor =
      s.stepCountAnchor := by
  have hemp : ms2.isEmpty = false := by
    cases ms2 with
    | nil => exact absurd rfl hne
    | cons a t => rfl
  unfold Client.syncHealthMetricsStep
  cases hfh : env.fetchHeartRate with
  | error e0 => rfl
  | ok p =>
    rcases p with ⟨ms1, na1⟩
    cases hemp1 : ms1.isEmpty <;>
      rcases hm1 : Client.makeRequest env.heartRateNet with e1 | r1 <;>
        cases na1 <;> simp [hemp1, hm1, hf, hemp, hmr]

/-- `performFullSync` preserves any state observation that the run body
preserves and that ignores the status-flag fields. -/
theorem performFullSync_pres (env : Client.SyncEnv)
    (s : Client.ClientState) (f : Client.ClientState → Option String)
    (hbody : ∀ t, f (Client.fullSyncBody env t).1 = f t)
    (hupd : ∀ (t : Client.ClientState) b e st,
      f { t with isSyncing := b, syncError := e, syncStatus := st } = f t)
    (hupd2 : ∀ (t : Client.ClientState) b,
      f { t with isSyncing := b } = f t) :
    f (Client.performFullSync env s) = f s := by
  by_cases hsync : s.isSyncing = true
  · simp [Client.performFullSync, hsync]
  · rw [Bool.not_eq_true] at hsync
    have h2 : f ({ s with isSyncing := true, syncError := none,
                          syncStatus := "Syncing..." } :
        Client.ClientState) = f s :=
      hupd s true none _
    rcases hb : Client.fullSyncBody env
        ({ s with isSyncing := true, syncError := none,
                  syncStatus := "Syncing..." } : Client.ClientState)
      with ⟨s1, e1⟩
    have h1 := hbody ({ s with isSyncing := true, syncError := none,
                               syncStatus := "Syncing..." } :
      Client.ClientState)
    rw [hb] at h1
    cases e1 with
    | some e =>
      simp only [Client.performFullSync, hsync, Bool.false_eq_true,
        if_false, hb]
      rw [hupd s1 false (some e) ("Sync failed: " ++ e)]
      exact h1.trans h2
    | none =>
      simp only [Client.performFullSync, hsync, Bool.false_eq_true,
        if_false, hb]
      rw [hupd2 s1 false]
      exact h1.trans h2

/-- Under a totally failed workouts submission the run body leaves the
workouts anchor unchanged. -/
theorem fullSyncBody_w_pres (env : Client.SyncEnv) (ws : List WorkoutData)
    (na : Option String) (e : String)
    (hf : env.fetchWorkouts = .ok (ws, na)) (hne : ws ≠ [])
    (hmr : Client.makeRequest env.workoutsNet = .error e) :
    ∀ t, ((Client.fullSyncBody env t).1).workoutsAnchor =
      t.workoutsAnchor := by
  intro t
  have hstep := syncWorkoutsStep_submit_fail env t ws na e hf hne hmr
  cases hh : Client.healthCheckStep env with
  | some e0 => simp [Client.fullSyncBody, hh]
  | none => simp [Client.fullSyncBody, hh, hstep]

/-- Under a totally failed heart-rate submission the run body leaves the
heart-rate anchor unchanged. -/
theorem fullSyncBody_hr_pres (env : Client.SyncEnv)
    (ms : List HealthMetricData) (na : Option String) (e : String)
    (hf : env.fetchHeartRate = .ok (ms, na)) (hne : ms ≠ [])
    (hmr : Client.makeRequest env.heartRateNet = .error e) :
    ∀ t, ((Client.fullSyncBody env t).1).heartRateAnchor =
      t.heartRateAnchor := by
  intro t
  rcases hw : Client.syncWorkoutsStep env t with ⟨s1, e1⟩
  have hfr := (syncWorkoutsStep_frame env t).1
  rw [hw] at hfr
  cases hh : Client.healthCheckStep env with
  | some e0 => simp [Client.fullSyncBody, hh]
  | none =>
    cases e1 with
    | some e0 =>
      simp only [Client.fullSyncBody, hh, hw]
      exact hfr
    | none =>
      have hm := syncHealthMetricsStep_hr_fail env s1 ms na e hf hne hmr
      simp only [Client.fullSyncBody, hh, hw, hm]
      exact hfr

/-- Under a totally failed step-count submission the run body leaves the
step-count anchor unchanged. -/
theorem fullSyncBody_sc_pres (env : Client.SyncEnv)
    (ms2 : List HealthMetricData) (na2 : Option String) (e : String)
    (hf : env.fetchStepCount = .ok (ms2, na2)) (hne : ms2 ≠ [])
    (hmr : Client.makeRequest env.stepCountNet = .error e) :
    ∀ t, ((Client.fullSyncBody env t).1).stepCountAnchor =
      t.stepCountAnchor := by
  intro t
  rcases hw : Client.syncWorkoutsStep env t with ⟨s1, e1⟩
  have hfr1 := (syncWorkoutsStep_frame env t).2
  rw [hw] at hfr1
  rcases hm : Client.syncHealthMetricsStep env s1 with ⟨s2, e2⟩
  have hfr2 := syncHealthMetricsStep_sc_frame_fail env s1 ms2 na2 e
    hf hne hmr
  rw [hm] at hfr2
  rcases hr : Client.syncActivityRingsStep env s2 with ⟨s3, e3⟩
  have hfr3 := syncActivityRingsStep_fst env s2
  rw [hr] at hfr3
  cases hh : Client.healthCheckStep env with
  | some e0 => simp [Client.fullSyncBody, hh]
  | none =>
    cases e1 with
    | some e0 =>
      simp only [Client.fullSyncBody, hh, hw]
      exact hfr1
    | none =>
      cases e2 with
      | some e0 =>
        simp only [Client.fullSyncBody, hh, hw, hm]
        exact hfr2.trans hfr1
      | none =>
        cases e3 with
        | some e0 =>
          simp only [Client.fullSyncBody, hh, hw, hm, hr]
          rw [show s3 = s2 from hfr3]
          exact hfr2.trans hfr1
        | none =>
          simp only [Client.fullSyncBody, hh, hw, hm, hr]
          rw [show s3 = s2 from hfr3]
          exact hfr2.trans hfr1

/-! Claim C2. -/

/-- C2: in a full-sync run, whenever a data type's ingestion call happens
(non-empty fetch) and fails entirely — `makeRequest` throws on transport
errors and on any status `>= 400` — the stored anchor for that data type is
unchanged across the run; conversely, an anchor that did change implies
its submission returned a non-throwing status (200 full or 207 partial
success). -/
theorem c2_anchor_advance_only_on_success (env : Client.SyncEnv)
    (s : Client.ClientState) :
    (∀ ws na e, env.fetchWorkouts = .ok (ws, na) → ws ≠ [] →
      Client.makeRequest env.workoutsNet = .error e →
      (Client.performFullSync env s).workoutsAnchor = s.workoutsAnchor) ∧
    (∀ ms na e, env.fetchHeartRate = .ok (ms, na) → ms ≠ [] →
      Client.makeRequest env.heartRateNet = .error e →
      (Client.performFullSync env s).heartRateAnchor = s.heartRateAnchor) ∧
    (∀ ms na e, env.fetchStepCount = .ok (ms, na) → ms ≠ [] →
      Client.makeRequest env.stepCountNet = .error e →
      (Client.performFullSync env s).stepCountAnchor = s.stepCountAnchor) ∧
    (∀ ws na, env.fetchWorkouts = .ok (ws, na) → ws ≠ [] →
      (Client.performFullSync env s).workoutsAnchor ≠ s.workoutsAnchor →
      ∃ r, Client.makeRequest env.workoutsNet = .ok r) ∧
    (∀ ms na, env.fetchHeartRate = .ok (ms, na) → ms ≠ [] →
      (Client.performFullSync env s).heartRateAnchor ≠ s.heartRateAnchor →
      ∃ r, Client.makeRequest env.heartRateNet = .ok r) ∧
    (∀ ms na, env.fetchStepCount = .ok (ms, na) → ms ≠ [] →
      (Client.performFullSync env s).stepCountAnchor ≠ s.stepCountAnchor →
      ∃ r, Client.makeRequest env.stepCountNet = .ok r) := by
  have hw : ∀ ws na e, env.fetchWorkouts = .ok (ws, na) → ws ≠ [] →
      Client.makeRequest env.workoutsNet = .error e →
      (Client.performFullSync env s).workoutsAnchor = s.workoutsAnchor :=
    fun ws na e hf hne hmr =>
      performFullSync_pres env s (fun t => t.workoutsAnchor)
        (fullSyncBody_w_pres env ws na e hf hne hmr)
        (fun t b e0 st => rfl) (fun t b => rfl)
  have hhr : ∀ ms na e, env.fetchHeartRate = .ok (ms, na) → ms ≠ [] →
      Client.makeRequest env.heartRateNet = .error e →
      (Client.performFullSync env s).heartRateAnchor = s.heartRateAnchor :=
    fun ms na e hf hne hmr =>
      performFullSync_pres env s (fun t => t.heartRateAnchor)
        (fullSyncBody_hr_pres env ms na e hf hne hmr)
        (fun t b e0 st => rfl) (fun t b => rfl)
  have hsc : ∀ ms na e, env.fetchStepCount = .ok (ms, na) → ms ≠ [] →
      Client.makeRequest env.stepCountNet = .error e →
      (Client.performFullSync env s).stepCountAnchor = s.stepCountAnchor :=
    fun ms na e hf hne hmr =>
      performFullSync_pres env s (fun t => t.stepCountAnchor)
        (fullSyncBody_sc_pres env ms na e hf hne hmr)
        (fun t b e0 st => rfl) (fun t b => rfl)
  refine ⟨hw, hhr, hsc, ?_, ?_, ?_⟩
  · intro ws na hf hne hch
    cases hmr : Client.makeRequest env.workoutsNet with
    | error e => exact absurd (hw ws na e hf hne hmr) hch
    | ok r => exact ⟨r, rfl⟩
  · intro ms na hf hne hch
    cases hmr : Client.makeRequest env.heartRateNet with
    | error e => exact absurd (hhr ms na e hf hne hmr) hch
    | ok r => exact ⟨r, rfl⟩
  · intro ms na hf hne hch
    cases hmr : Client.makeRequest env.stepCountNet with
    | error e => exact absurd (hsc ms na e hf hne hmr) hch
    | ok r => exact ⟨r, rfl⟩

/-- Witness for C2: a run in which all three submissions fail at the
transport level leaves all three stored anchors byte-identical. -/
theorem c2_anchor_advance_only_on_success_witness :
    (Client.performFullSync envAllFail sC0).workoutsAnchor =
      sC0.workoutsAnchor ∧
    (Client.performFullSync envAllFail sC0).heartRateAnchor =
      sC0.heartRateAnchor ∧
    (Client.performFullSync envAllFail sC0).stepCountAnchor =
      sC0.stepCountAnchor :=
  ⟨(c2_anchor_advance_only_on_success envAllFail sC0).1 [wSample]
      (some "w-new") _ rfl (List.cons_ne_nil _ _) rfl,
   (c2_anchor_advance_only_on_success envAllFail sC0).2.1 [mSample]
      (some "hr-new") _ rfl (List.cons_ne_nil _ _) rfl,
   (c2_anchor_advance_only_on_success envAllFail sC0).2.2.1 [mSample]
      (some "sc-new") _ rfl (List.cons_ne_nil _ _) rfl⟩

/-! Claim C3. -/

/-- C3 counterexample: with a healthy backend, a workouts query that
returns zero records but a fresh `HKQueryAnchor`, and a stored anchor
`"anchor-old"`, the run overwrites the stored anchor — the claim's "the
anchor is not overwritten" is false on the code (`saveAnchor` runs
unconditionally after the empty-batch skip). -/
theorem c3_zero_records_counterexample :
    envC3.fetchWorkouts = .ok ([], some "anchor-new") ∧
    (Client.performFullSync envC3 sC3).workoutsAnchor ≠
      sC3.workoutsAnchor :=
  ⟨rfl, by decide⟩

/-- C3 amended, for every anchored per-data-type step (workouts in
`syncWorkouts`, heart rate and step count in `syncHealthMetrics`; the
rings step keeps no anchor): when the query returns zero records, no
submission occurs (the network outcome for the data type's endpoint is
never consulted — the statement holds for every submission outcome,
including failing ones) and the step raises no error, but the new anchor
returned by the query IS persisted, overwriting the stored one. -/
theorem c3_zero_records_persists_query_anchor (env : Client.SyncEnv)
    (s : Client.ClientState) :
    (∀ a, env.fetchWorkouts = .ok ([], some a) →
      Client.syncWorkoutsStep env s =
        ({ s with workoutsAnchor := some a }, none)) ∧
    (∀ a1 a2, env.fetchHeartRate = .ok ([], some a1) →
      env.fetchStepCount = .ok ([], some a2) →
      Client.syncHealthMetricsStep env s =
        ({ s with heartRateAnchor := some a1,
                  stepCountAnchor := some a2 }, none)) := by
  constructor
  · intro a h
    simp [Client.syncWorkoutsStep, h]
  · intro a1 a2 h1 h2
    simp [Client.syncHealthMetricsStep, h1, h2]

/-- Witness for the amended C3 at a concrete environment where all three
anchored queries return zero records but fresh anchors, and every
submission endpoint would fail if consulted. -/
theorem c3_zero_records_persists_query_anchor_witness :
    Client.syncWorkoutsStep envC3all sC3 =
      ({ sC3 with workoutsAnchor := some "w-new2" }, none) ∧
    Client.syncHealthMetricsStep envC3all sC3 =
      ({ sC3 with heartRateAnchor := some "hr-new2",
                  stepCountAnchor := some "sc-new2" }, none) :=
  ⟨(c3_zero_records_persists_query_anchor envC3all sC3).1 "w-new2" rfl,
   (c3_zero_records_persists_query_anchor envC3all sC3).2 "hr-new2" "sc-new2"
     rfl rfl⟩

/-! Lemmas characterizing step failure and success for the run level. -/

/-- A non-empty list is not `isEmpty`. -/
theorem isEmpty_false_of_ne_nil {α : Type} (l : List α) (h : l ≠ []) :
    l.isEmpty = false := by
  cases l with
  | nil => exact absurd rfl h
  | cons a t => rfl

/-- The workouts step never writes the last-sync date. -/
theorem syncWorkoutsStep_lastSync (env : Client.SyncEnv)
    (t : Client.ClientState) :
    ((Client.syncWorkoutsStep env t).1).lastSyncDate = t.lastSyncDate := by
  unfold Client.syncWorkoutsStep
  (repeat' split) <;> simp

/-- The metrics step never writes the last-sync date. -/
theorem syncHealthMetricsStep_lastSync (env : Client.SyncEnv)
    (t : Client.ClientState) :
    ((Client.syncHealthMetricsStep env t).1).lastSyncDate =
      t.lastSyncDate := by
  unfold Client.syncHealthMetricsStep
  (repeat' split) <;> simp

/-- A failing workouts step throws its error with the state unchanged,
whichever of its two `try` points threw. -/
theorem workoutsStepFails_run (env : Client.SyncEnv) (e : String)
    (h : Client.workoutsStepFails env e) :
    ∀ t, Client.syncWorkoutsStep env t = (t, some e) := by
  intro t
  rcases h with hf | ⟨ws, na, hf, hne, hmr⟩
  · exact syncWorkoutsStep_fetch_fail env t e hf
  · exact syncWorkoutsStep_submit_fail env t ws na e hf hne hmr

/-- A non-failing workouts step throws nothing. -/
theorem workoutsStepOk_snd (env : Client.SyncEnv)
    (h : Client.workoutsStepOk env) :
    ∀ t, (Client.syncWorkoutsStep env t).2 = none := by
  intro t
  obtain ⟨ws, na, hf, hcase⟩ := h
  rcases hcase with hnil | ⟨r, hmr⟩
  · subst hnil
    cases na <;> simp [Client.syncWorkoutsStep, hf]
  · cases na <;> cases hemp : ws.isEmpty <;>
      simp [Client.syncWorkoutsStep, hf, hemp, hmr]

/-- A failing metrics step throws its error, whichever of its four `try`
points threw. -/
theorem metricsStepFails_snd (env : Client.SyncEnv) (e : String)
    (h : Client.metricsStepFails env e) :
    ∀ t, (Client.syncHealthMetricsStep env t).2 = some e := by
  intro t
  rcases h with hf | ⟨ms, na, hf, hne, hmr⟩ | ⟨⟨ms1, na1, hf1, hok1⟩, hsc⟩
  · simp [Client.syncHealthMetricsStep, hf]
  · rw [syncHealthMetricsStep_hr_fail env t ms na e hf hne hmr]
  · rcases hok1 with hnil1 | ⟨r1, hmr1⟩ <;>
      rcases hsc with hf2 | ⟨ms2, na2, hf2, hne2, hmr2⟩
    · subst hnil1
      cases na1 <;> simp [Client.syncHealthMetricsStep, hf1, hf2]
    · subst hnil1
      have hemp2 := isEmpty_false_of_ne_nil ms2 hne2
      cases na1 <;> cases na2 <;>
        simp [Client.syncHealthMetricsStep, hf1, hf2, hemp2, hmr2]
    · cases na1 <;> cases hemp1 : ms1.isEmpty <;>
        simp [Client.syncHealthMetricsStep, hf1, hmr1, hemp1, hf2]
    · have hemp2 := isEmpty_false_of_ne_nil ms2 hne2
      cases na1 <;> cases na2 <;> cases hemp1 : ms1.isEmpty <;>
        simp [Client.syncHealthMetricsStep, hf1, hmr1, hemp1, hf2,
          hemp2, hmr2]

/-- A non-failing metrics step throws nothing. -/
theorem metricsStepOk_snd (env : Client.SyncEnv)
    (h : Client.metricsStepOk env) :
    ∀ t, (Client.syncHealthMetricsStep env t).2 = none := by
  intro t
  obtain ⟨⟨ms1, na1, hf1, hok1⟩, ms2, na2, hf2, hok2⟩ := h
  rcases hok1 with hnil1 | ⟨r1, hmr1⟩ <;>
    rcases hok2 with hnil2 | ⟨r2, hmr2⟩
  · subst hnil1; subst hnil2
    cases na1 <;> cases na2 <;> simp [Client.syncHealthMetricsStep, hf1, hf2]
  · subst hnil1
    cases na1 <;> cases na2 <;> cases hemp2 : ms2.isEmpty <;>
      simp [Client.syncHealthMetricsStep, hf1, hf2, hmr2, hemp2]
  · subst hnil2
    cases na1 <;> cases na2 <;> cases hemp1 : ms1.isEmpty <;>
      simp [Client.syncHealthMetricsStep, hf1, hf2, hmr1, hemp1]
  · cases na1 <;> cases na2 <;> cases hemp1 : ms1.isEmpty <;>
      cases hemp2 : ms2.isEmpty <;>
      simp [Client.syncHealthMetricsStep, hf1, hf2, hmr1, hmr2, hemp1, hemp2]

/-- A failing rings step throws its error with the state unchanged. -/
theorem ringsStepFails_run (env : Client.SyncEnv) (e : String)
    (h : Client.ringsStepFails env e) :
    ∀ t, Client.syncActivityRingsStep env t = (t, some e) := by
  intro t
  rcases h with hf | ⟨rs, hf, hne, hmr⟩
  · simp [Client.syncActivityRingsStep, hf]
  · have hemp := isEmpty_false_of_ne_nil rs hne
    simp [Client.syncActivityRingsStep, hf, hemp, hmr]

/-- With the workouts step surviving and the metrics step failing, the
run body throws the metrics error and never reaches the completion step:
the last-sync date flows through unchanged. -/
theorem fullSyncBody_metrics_fail (env : Client.SyncEnv) (e : String)
    (hh : Client.healthCheckStep env = none)
    (hokW : Client.workoutsStepOk env)
    (hfail : Client.metricsStepFails env e) :
    ∀ t, (Client.fullSyncBody env t).2 = some e ∧
      ((Client.fullSyncBody env t).1).lastSyncDate = t.lastSyncDate := by
  intro t
  rcases hw : Client.syncWorkoutsStep env t with ⟨s1, e1⟩
  have he1 : e1 = none := by
    have hx := workoutsStepOk_snd env hokW t
    rw [hw] at hx
    exact hx
  subst he1
  have hld1 : s1.lastSyncDate = t.lastSyncDate := by
    have hx := syncWorkoutsStep_lastSync env t
    rw [hw] at hx
    exact hx
  rcases hm : Client.syncHealthMetricsStep env s1 with ⟨s2, e2⟩
  have he2 : e2 = some e := by
    have hx := metricsStepFails_snd env e hfail s1
    rw [hm] at hx
    exact hx
  subst he2
  have hld2 : s2.lastSyncDate = s1.lastSyncDate := by
    have hx := syncHealthMetricsStep_lastSync env s1
    rw [hm] at hx
    exact hx
  constructor
  · simp [Client.fullSyncBody, hh, hw, hm]
  · simp only [Client.fullSyncBody, hh, hw, hm]
    exact hld2.trans hld1

/-- With the workouts and metrics steps surviving and the rings step
failing, the run body throws the rings error and never reaches the
completion step. -/
theorem fullSyncBody_rings_fail (env : Client.SyncEnv) (e : String)
    (hh : Client.healthCheckStep env = none)
    (hokW : Client.workoutsStepOk env) (hokM : Client.metricsStepOk env)
    (hfail : Client.ringsStepFails env e) :
    ∀ t, (Client.fullSyncBody env t).2 = some e ∧
      ((Client.fullSyncBody env t).1).lastSyncDate = t.lastSyncDate := by
  intro t
  rcases hw : Client.syncWorkoutsStep env t with ⟨s1, e1⟩
  have he1 : e1 = none := by
    have hx := workoutsStepOk_snd env hokW t
    rw [hw] at hx
    exact hx
  subst he1
  have hld1 : s1.lastSyncDate = t.lastSyncDate := by
    have hx := syncWorkoutsStep_lastSync env t
    rw [hw] at hx
    exact hx
  rcases hm : Client.syncHealthMetricsStep env s1 with ⟨s2, e2⟩
  have he2 : e2 = none := by
    have hx := metricsStepOk_snd env hokM s1
    rw [hm] at hx
    exact hx
  subst he2
  have hld2 : s2.lastSyncDate = s1.lastSyncDate := by
    have hx := syncHealthMetricsStep_lastSync env s1
    rw [hm] at hx
    exact hx
  have hr := ringsStepFails_run env e hfail s2
  constructor
  · simp [Client.fullSyncBody, hh, hw, hm, hr]
  · simp only [Client.fullSyncBody, hh, hw, hm, hr]
    exact hld2.trans hld1

/-- A run whose body throws `e` and flows the last-sync date through ends
with `e` recorded and the visible last-sync date untouched. -/
theorem performFullSync_fail_obs (env : Client.SyncEnv)
    (s : Client.ClientState) (e : String) (hsync : s.isSyncing = false)
    (hbody : ∀ t, (Client.fullSyncBody env t).2 = some e ∧
      ((Client.fullSyncBody env t).1).lastSyncDate = t.lastSyncDate) :
    (Client.performFullSync env s).syncError = some e ∧
    (Client.performFullSync env s).lastSyncDate = s.lastSyncDate := by
  simp only [Client.performFullSync, hsync, Bool.false_eq_true, if_false]
  rcases hb : Client.fullSyncBody env { s with isSyncing := true, syncError := none, syncStatus := "Syncing..." } with ⟨s1, e1⟩
  obtain ⟨hsnd, hld⟩ := hbody { s with isSyncing := true, syncError := none, syncStatus := "Syncing..." }
  rw [hb] at hsnd hld
  have he1 : e1 = some e := hsnd
  subst he1
  simp only [hb]
  refine ⟨by simp, ?_⟩
  simpa using hld

/-! Claim C4. -/

/-- C4 counterexample: the heart-rate step run by itself would persist the
fresh anchor `"hr-new"`, but in a full run where the workouts query throws
first, the heart-rate anchor stays `none` and the run records the
workouts error — the later data types were not attempted, refuting
per-data-type failure isolation. -/
theorem c4_failure_isolation_counterexample :
    (Client.syncHealthMetricsStep envC4 sC0).1.heartRateAnchor =
      some "hr-new" ∧
    (Client.performFullSync envC4 sC0).heartRateAnchor = none ∧
    (Client.performFullSync envC4 sC0).syncError =
      some "HealthKit query failed" := by
  refine ⟨by decide, by decide, by decide⟩

/-- C4 amended: all three data-type steps run inside one `do`/`catch`, so
an error of either kind — upstream-source query throw, or ingestion
submission throw (network error / status >= 400) — in any data type's
step aborts the remaining steps of that run. A workouts-step error leaves
the final state identical to the initial one except for the recorded
error (the metrics and rings steps leave no trace); a metrics-step error
(at any of its four throw points) or a rings-step error still records the
error and skips the completion step, leaving the visible last-sync date
untouched. `isSyncing` is cleared in every case, so later runs proceed. -/
theorem c4_one_failure_aborts_run (env : Client.SyncEnv)
    (s : Client.ClientState) (e : String) (hsync : s.isSyncing = false)
    (hh : Client.healthCheckStep env = none) :
    (Client.workoutsStepFails env e →
      Client.performFullSync env s =
        { s with isSyncing := false, syncError := some e,
                 syncStatus := "Sync failed: " ++ e }) ∧
    (Client.workoutsStepOk env → Client.metricsStepFails env e →
      (Client.performFullSync env s).syncError = some e ∧
      (Client.performFullSync env s).lastSyncDate = s.lastSyncDate) ∧
    (Client.workoutsStepOk env → Client.metricsStepOk env →
      Client.ringsStepFails env e →
      (Client.performFullSync env s).syncError = some e ∧
      (Client.performFullSync env s).lastSyncDate = s.lastSyncDate) := by
  refine ⟨?_, ?_, ?_⟩
  · intro hfail
    have hstep := workoutsStepFails_run env e hfail
    simp [Client.performFullSync, Client.fullSyncBody, hsync, hh, hstep]
  · intro hokW hfail
    exact performFullSync_fail_obs env s e hsync
      (fullSyncBody_metrics_fail env e hh hokW hfail)
  · intro hokW hokM hfail
    exact performFullSync_fail_obs env s e hsync
      (fullSyncBody_rings_fail env e hh hokW hokM hfail)

/-- Witness for the amended C4: a throwing workouts query aborts the rest
of the run, and, in a second environment, a heart-rate submission
transport failure records its error and skips the completion step. -/
theorem c4_one_failure_aborts_run_witness :
    Client.performFullSync envC4 sC0 =
      { sC0 with isSyncing := false,
                 syncError := some "HealthKit query failed",
                 syncStatus := "Sync failed: " ++ "HealthKit query failed" } ∧
    ((Client.performFullSync envC4b sC0).syncError =
        some "Network error: hr down" ∧
      (Client.performFullSync envC4b sC0).lastSyncDate =
        sC0.lastSyncDate) :=
  ⟨(c4_one_failure_aborts_run envC4 sC0 "HealthKit query failed" rfl rfl).1
      (Or.inl rfl),
   (c4_one_failure_aborts_run envC4b sC0 "Network error: hr down" rfl
        rfl).2.1
      ⟨[], none, rfl, Or.inl rfl⟩
      (Or.inr (Or.inl ⟨[mSample], some "hr-new", rfl,
        List.cons_ne_nil _ _, rfl⟩))⟩

/-! Claim C9. -/

/-- C9 counterexample: with the liveness probe unreachable (the probe, run
by itself, reports the connectivity error), the historical import still
proceeds: it submits the fetched workouts, persists the anchor and
finishes without any error — it performs no preflight and does not abort,
refuting the claim. -/
theorem c9_historical_preflight_counterexample :
    Client.healthCheckStep envC9 = some "Network error: backend down" ∧
    (Client.performHistoricalImport envC9 sC0).workoutsAnchor =
      some "hist-anchor" ∧
    (Client.performHistoricalImport envC9 sC0).syncError = none := by
  refine ⟨rfl, by decide, by decide⟩

/-- C9 amended: the historical import performs no liveness preflight at
all — its outcome is independent of the health endpoint — and goes
straight to its data-type steps (workouts then activity rings);
unreachability surfaces only if a data-type call itself fails. -/
theorem c9_historical_ignores_preflight (env : Client.SyncEnv)
    (h : Client.NetOutcome String) (s : Client.ClientState) :
    Client.performHistoricalImport { env with healthNet := h } s =
      Client.performHistoricalImport env s := rfl

end FitnessExtractor
